import Mathlib

/-!
Verification of the currency-conversion workflow of the repository
(`CurrencyApiService` and the `CurrencyConverter` session component).

The TypeScript source is shallowly embedded: JS numbers are modelled as
exact rationals (`ℚ`), the `rates` record as an association list from
currency code to rational, `toFixed(n)` as round-half-away-from-zero at
`n` decimal places (the rounding rule the specification pins down), and
thrown `Error(msg)` values as `Except String`.  The HTTP transport is an
explicit parameter: a `FetchOutcome` describes what `axios.get` did for a
given base currency, and session code threads a `World` (base currency ↦
outcome) explicitly.
-/

/-- Round-half-away-from-zero to the nearest integer (the rounding rule the
spec pins for `toFixed`). -/
def roundAway (x : ℚ) : ℤ :=
  if 0 ≤ x then Rat.floor (x + 1/2) else -Rat.floor (-x + 1/2)

/-- `roundTo n x` models `Number(x.toFixed(n))`: round `x` to `n` decimal
places, half away from zero. -/
def roundTo (n : ℕ) (x : ℚ) : ℚ :=
  (roundAway (x * 10 ^ n) : ℚ) / 10 ^ n

/-- The wire-level body of a successful HTTP 200 response from the rate
provider, as the code reads it (`response.data`).  `rates = none` models a
body with no `rates` field.  `errorType` models the provider's own error
report (e.g. `"unsupported-code"` for an unrecognized base currency); the
source never reads this field. -/
structure UpstreamData where
  rates : Option (List (String × ℚ))
  base : String
  date : String
  errorType : Option String := none

/-- One outcome of `axios.get` on the rate endpoint: either the transport
fails with an axios error carrying a message, or a response body arrives
(`none` models a missing/empty `response.data`). -/
inductive FetchOutcome where
  | axiosFail (msg : String)
  | success (data : Option UpstreamData)

/-- The value `getExchangeRates` resolves with (interface `ExchangeRates`). -/
structure ExchangeRates where
  rates : List (String × ℚ)
  base : String
  date : String

/-- Record lookup `rates[c]` on the association-list model of the JS
object: `none` models `undefined`. -/
def getRate (rs : List (String × ℚ)) (c : String) : Option ℚ :=
  (rs.find? (fun p => p.1 == c)).map (fun p => p.2)

/-- Embedding of `CurrencyApiService.getExchangeRates`.  The body checks
`response.data && response.data.rates`; on failure it throws
`'Invalid response format'`, which its own `catch` block then rewraps:
axios errors become `` `Failed to fetch exchange rates: ${error.message}` ``
and every other throw (including the format throw) becomes the plain
`'Failed to fetch exchange rates'`. -/
def getExchangeRates (o : FetchOutcome) : Except String ExchangeRates :=
  match o with
  | .axiosFail msg => .error ("Failed to fetch exchange rates: " ++ msg)
  | .success none => .error "Failed to fetch exchange rates"
  | .success (some d) =>
    match d.rates with
    | none => .error "Failed to fetch exchange rates"
    | some rs => .ok { rates := rs, base := d.base, date := d.date }

/-- The record `{ convertedAmount, rate }` returned by `convertCurrency`. -/
structure ConvResult where
  convertedAmount : ℚ
  rate : ℚ
deriving DecidableEq

/-- Embedding of the pure tail of `CurrencyApiService.convertCurrency`,
after the `await` of the rate table: `const rate = exchangeRates.rates[toCurrency];
if (!rate) throw ...`.  JS falsiness of `rate` holds when the key is absent
(`undefined`) or when the stored number is `0`, so both go to the error
branch. -/
def convertCore (table : ExchangeRates) (toCurrency : String) (amount : ℚ) :
    Except String ConvResult :=
  match getRate table.rates toCurrency with
  | none => .error ("Exchange rate not available for " ++ toCurrency)
  | some rate =>
    if rate = 0 then .error ("Exchange rate not available for " ++ toCurrency)
    else .ok { convertedAmount := roundTo 4 (amount * rate), rate := roundTo 6 rate }

/-- Embedding of the whole of `CurrencyApiService.convertCurrency`, with the
transport outcome for the `fromCurrency` fetch as an explicit argument. -/
def convertCurrency (o : FetchOutcome) (toCurrency : String) (amount : ℚ) :
    Except String ConvResult :=
  match getExchangeRates o with
  | .error e => .error e
  | .ok t => convertCore t toCurrency amount

/-- The external world seen by the component: what the transport does for
each base currency. -/
def World : Type := String → FetchOutcome

/-- `convertCurrency` run with explicit state passing: it reads the world
(the single `axios.get`) and returns it unchanged — the source mutates
nothing. -/
def convertCurrencyRun (w : World) (fromCurrency toCurrency : String) (amount : ℚ) :
    Except String ConvResult × World :=
  match getExchangeRates (w fromCurrency) with
  | .error e => (.error e, w)
  | .ok t => (convertCore t toCurrency amount, w)

/-- The `CurrencyConversion` state held by the `CurrencyConverter`
component (`useState<CurrencyConversion>`). -/
structure CurrencyConversion where
  fromCurrency : String
  toCurrency : String
  amount : ℚ
  convertedAmount : Option ℚ := none
  rate : Option ℚ := none
deriving DecidableEq

/-- The full component state: the conversion record, the fetched currency
list, and the error message string. -/
structure SessionState where
  conversion : CurrencyConversion
  currencies : List String := []
  error : String := ""
deriving DecidableEq

/-- Embedding of `swapCurrencies`: the state update spreads the previous
conversion and exchanges only `fromCurrency` and `toCurrency`; the second
component is the base currency passed to the `fetchCurrencies` call it
issues (`conversion.toCurrency`, the old target). -/
def swapCurrencies (s : SessionState) : SessionState × String :=
  ({ s with conversion := { s.conversion with
        fromCurrency := s.conversion.toCurrency,
        toCurrency := s.conversion.fromCurrency } },
   s.conversion.toCurrency)

/-- One event in the life of the component's `fetchCurrencies` calls:
a fetch is issued with a request number, or the fetch with a given number
resolves successfully with a currency list (`Object.keys(exchangeRates.rates)`). -/
inductive FetchEvent where
  | issue (id : ℕ)
  | resolve (id : ℕ) (result : List String)

/-- How one event acts on the stored `currencies` state.  In the source a
resolving fetch always calls `setCurrencies(currencyList)`: there is no
request-id comparison, so a resolution writes unconditionally. -/
def applyEvent (cur : List String) (e : FetchEvent) : List String :=
  match e with
  | .issue _ => cur
  | .resolve _ res => res

/-- The stored `currencies` state after a whole interleaving of fetch
events. -/
def runEvents (cur : List String) (es : List FetchEvent) : List String :=
  es.foldl applyEvent cur

/-- Embedding of `handleConvert`.  The guard
`if (!conversion.amount || conversion.amount <= 0)` sets the error message
and returns before any fetch; otherwise `convertCurrency` runs against the
world and its result (or error) is stored.  The boolean reports whether a
fetch/conversion was attempted. -/
def handleConvert (w : World) (s : SessionState) : SessionState × Bool :=
  if s.conversion.amount = 0 ∨ s.conversion.amount ≤ 0 then
    ({ s with error := "Please enter a valid amount" }, false)
  else
    match convertCurrency (w s.conversion.fromCurrency) s.conversion.toCurrency
        s.conversion.amount with
    | .ok r =>
      ({ s with
          conversion := { s.conversion with
            convertedAmount := some r.convertedAmount, rate := some r.rate },
          error := "" }, true)
    | .error e => ({ s with error := e }, true)

/-- The concrete rate table of the spec's scenario:
base `"USD"`, rates `{"USD": 1, "EUR": 0.9}`. -/
def usdTable : ExchangeRates :=
  { rates := [("USD", 1), ("EUR", 9/10)], base := "USD", date := "2024-01-01" }

/-- A transport outcome delivering `usdTable` successfully. -/
def usdOutcome : FetchOutcome :=
  .success (some { rates := some [("USD", 1), ("EUR", 9/10)],
                   base := "USD", date := "2024-01-01" })

/-- A response body in which the provider reports the base code `"ZZZ"` as
unrecognized (its error report carries no `rates` field). -/
def upstreamUnsupportedCode : UpstreamData :=
  { rates := none, base := "ZZZ", date := "", errorType := some "unsupported-code" }

/-- A response body that simply violates the contract: no `rates` field,
no provider error report. -/
def upstreamNoRates : UpstreamData :=
  { rates := none, base := "USD", date := "2024-01-01", errorType := none }

/-- A rate table in which the key `"XXX"` is present but maps to `0`
(a falsy JS number). -/
def zeroRateTable : ExchangeRates :=
  { rates := [("USD", 1), ("XXX", 0)], base := "USD", date := "2024-01-01" }

/-- A session state holding a computed conversion result, about to be
swapped. -/
def swapState : SessionState :=
  { conversion := { fromCurrency := "USD", toCurrency := "EUR", amount := 10,
                    convertedAmount := some 9, rate := some (9/10) } }

/-- A session state whose entered amount is `0`, still holding a previous
result. -/
def zeroAmountState : SessionState :=
  { conversion := { fromCurrency := "USD", toCurrency := "EUR", amount := 0,
                    convertedAmount := some 5, rate := some (1/2) } }

/-- A world in which every base currency fetch returns the USD table. -/
def usdWorld : World := fun _ => usdOutcome

/-! ## Rounding lemmas -/

lemma ratFloor_eq (q : ℚ) : Rat.floor q = ⌊q⌋ :=
  (Rat.floor_def' q).trans Rat.floor_def.symm

lemma floor_half : ⌊(1/2 : ℚ)⌋ = 0 := by
  rw [Int.floor_eq_zero_iff]
  constructor <;> norm_num

lemma roundAway_intCast (k : ℤ) : roundAway (k : ℚ) = k := by
  unfold roundAway
  rcases le_or_lt 0 (k : ℚ) with h | h
  · rw [if_pos h, ratFloor_eq, Int.floor_int_add, floor_half, add_zero]
  · rw [if_neg (not_le.mpr h)]
    rw [show (-(k:ℚ) + 1/2) = ((-k : ℤ) : ℚ) + 1/2 by push_cast; ring]
    rw [ratFloor_eq, Int.floor_int_add, floor_half, add_zero, neg_neg]

/-- Rounding a value that already has at most `n` decimal places changes
nothing. -/
lemma roundTo_eq_self (n : ℕ) (x : ℚ) (k : ℤ) (h : x * 10 ^ n = (k : ℚ)) :
    roundTo n x = x := by
  unfold roundTo
  rw [h, roundAway_intCast, ← h]
  field_simp

lemma abs_roundAway_sub_le (x : ℚ) : |(roundAway x : ℚ) - x| ≤ 1/2 := by
  unfold roundAway
  rcases le_or_lt 0 x with h | h
  · rw [if_pos h, ratFloor_eq]
    have h1 : (⌊x + 1/2⌋ : ℚ) ≤ x + 1/2 := Int.floor_le _
    have h2 : x + 1/2 - 1 < (⌊x + 1/2⌋ : ℚ) := Int.sub_one_lt_floor _
    rw [abs_le]
    constructor <;> linarith
  · rw [if_neg (not_le.mpr h), ratFloor_eq]
    have h1 : (⌊-x + 1/2⌋ : ℚ) ≤ -x + 1/2 := Int.floor_le _
    have h2 : -x + 1/2 - 1 < (⌊-x + 1/2⌋ : ℚ) := Int.sub_one_lt_floor _
    rw [abs_le]
    constructor <;> push_cast <;> linarith

/-- Round-half-away-from-zero at `n` decimal places moves a value by at
most half an ulp, `1 / (2 * 10 ^ n)`. -/
lemma abs_roundTo_sub_le (n : ℕ) (x : ℚ) : |roundTo n x - x| ≤ 1 / (2 * 10 ^ n) := by
  unfold roundTo
  have hp : (0:ℚ) < 10 ^ n := by positivity
  have hb := abs_roundAway_sub_le (x * 10 ^ n)
  have key : (roundAway (x * 10 ^ n) : ℚ) / 10 ^ n - x
      = ((roundAway (x * 10 ^ n) : ℚ) - x * 10 ^ n) / 10 ^ n := by
    field_simp
    ring
  rw [key, abs_div, abs_of_pos hp, div_le_div_iff₀ hp (by positivity)]
  calc |(roundAway (x * 10 ^ n) : ℚ) - x * 10 ^ n| * (2 * 10 ^ n)
      ≤ (1/2) * (2 * 10 ^ n) := mul_le_mul_of_nonneg_right hb (by positivity)
    _ = 1 * 10 ^ n := by ring

/-! ## Evaluation lemmas for the converter -/

lemma getRate_usdTable_eur : getRate usdTable.rates "EUR" = some (9/10) := rfl

lemma convertCore_some {t : ExchangeRates} {c : String} {r : ℚ}
    (h : getRate t.rates c = some r) (hr : r ≠ 0) (a : ℚ) :
    convertCore t c a = .ok ⟨roundTo 4 (a * r), roundTo 6 r⟩ := by
  unfold convertCore
  rw [h]
  simp [hr]

lemma convertCore_absent {t : ExchangeRates} {c : String}
    (h : getRate t.rates c = none) (a : ℚ) :
    convertCore t c a = .error ("Exchange rate not available for " ++ c) := by
  unfold convertCore
  rw [h]

lemma convertCore_zero_rate {t : ExchangeRates} {c : String}
    (h : getRate t.rates c = some 0) (a : ℚ) :
    convertCore t c a = .error ("Exchange rate not available for " ++ c) := by
  unfold convertCore
  rw [h]
  simp

/-! ## Claim theorems -/

/-- C1: for the table with base `"USD"` and rates `{"USD": 1, "EUR": 0.9}`,
converting `{sourceCurrency: "USD", targetCurrency: "EUR", amount: 10}`
returns `convertedAmount = 9` (after 4-decimal rounding) and
`effectiveRate = 0.9` (after 6-decimal rounding), both through the pure
converter and through `convertCurrency` with a successful fetch. -/
theorem C1_usd_eur_ten :
    convertCore usdTable "EUR" 10 = .ok { convertedAmount := 9, rate := 9/10 } ∧
    convertCurrency usdOutcome "EUR" 10 = .ok { convertedAmount := 9, rate := 9/10 } := by
  have hcore : convertCore usdTable "EUR" 10 = .ok { convertedAmount := 9, rate := 9/10 } := by
    rw [convertCore_some getRate_usdTable_eur (by norm_num) 10]
    norm_num
    exact ⟨roundTo_eq_self 4 9 90000 (by norm_num),
           roundTo_eq_self 6 (9/10) 900000 (by norm_num)⟩
  exact ⟨hcore, by rw [show convertCurrency usdOutcome "EUR" 10
    = convertCore usdTable "EUR" 10 from rfl, hcore]⟩

/-- C2: whenever the target currency is absent from the table's rates,
conversion fails with the error message naming the missing code
(`"Exchange rate not available for " ++ c` literally ends with `c`), and no
result is returned. -/
theorem C2_missing_target (t : ExchangeRates) (c : String) (a : ℚ)
    (h : getRate t.rates c = none) :
    convertCore t c a = .error ("Exchange rate not available for " ++ c) ∧
    ∀ res : ConvResult, convertCore t c a ≠ .ok res := by
  refine ⟨convertCore_absent h a, fun res hres => ?_⟩
  rw [convertCore_absent h a] at hres
  exact Except.noConfusion hres

/-- Witness for C2 at the spec's example: `"XYZ"` absent from the USD table. -/
theorem C2_missing_target_witness :
    convertCore usdTable "XYZ" 10 = .error "Exchange rate not available for XYZ" ∧
    ∀ res : ConvResult, convertCore usdTable "XYZ" 10 ≠ .ok res :=
  C2_missing_target usdTable "XYZ" 10 rfl

/-- C3 counterexample: fetch 1 (A) is issued, then fetch 2 (B); B resolves
first with `["EUR"]`, then A resolves with `["USD"]`.  The stored list ends
as A's result, not B's: the unguarded `setCurrencies` lets a superseded
response overwrite the later request's state. -/
theorem C3_stale_overwrite_counterexample :
    runEvents [] [.issue 1, .issue 2, .resolve 2 ["EUR"], .resolve 1 ["USD"]]
      = ["USD"] ∧ (["USD"] : List String) ≠ ["EUR"] := by
  refine ⟨rfl, ?_⟩
  decide

/-- C3 amended: the source has no request-id guard, so the stored currency
list always reflects whichever fetch resolves last in the event
interleaving, regardless of issue order. -/
theorem C3_last_resolve_wins (cur : List String) (es : List FetchEvent)
    (i : ℕ) (r : List String) :
    runEvents cur (es ++ [.resolve i r]) = r := by
  unfold runEvents
  rw [List.foldl_append]
  rfl

/-- C4: on a table satisfying the invariant (the base currency maps to 1),
converting a non-negative amount from the base currency to itself yields
`effectiveRate = 1` and `convertedAmount = roundTo 4 amount`, which is
within half a 4-decimal ulp of the amount. -/
theorem C4_identity_conversion (t : ExchangeRates) (a : ℚ)
    (hinv : getRate t.rates t.base = some 1) (_ha : 0 ≤ a) :
    convertCore t t.base a = .ok { convertedAmount := roundTo 4 a, rate := 1 } ∧
    |roundTo 4 a - a| ≤ 1 / 20000 := by
  constructor
  · rw [convertCore_some hinv one_ne_zero a, mul_one,
      roundTo_eq_self 6 1 1000000 (by norm_num)]
  · have := abs_roundTo_sub_le 4 a
    norm_num at this ⊢
    exact this

/-- Witness for C4 at the USD table with amount 3. -/
theorem C4_identity_conversion_witness :
    convertCore usdTable usdTable.base 3
      = .ok { convertedAmount := roundTo 4 3, rate := 1 } ∧
    |roundTo 4 3 - 3| ≤ 1 / 20000 :=
  C4_identity_conversion usdTable 3 rfl (by norm_num)

/-- C5: when the target currency is present with a positive rate `r`,
converting amount 0 succeeds with `convertedAmount = 0` and
`effectiveRate = roundTo 6 r`, the table's rate. -/
theorem C5_zero_amount (t : ExchangeRates) (c : String) (r : ℚ)
    (h : getRate t.rates c = some r) (hr : 0 < r) :
    convertCore t c 0 = .ok { convertedAmount := 0, rate := roundTo 6 r } := by
  rw [convertCore_some h (ne_of_gt hr) 0, zero_mul,
    roundTo_eq_self 4 0 0 (by norm_num)]

/-- Witness for C5 at the spec's example: the USD table with EUR rate 0.9
gives `{convertedAmount: 0, effectiveRate: 0.9}` for amount 0. -/
theorem C5_zero_amount_witness :
    (0:ℚ) < 9/10 ∧
    convertCore usdTable "EUR" 0 = .ok { convertedAmount := 0, rate := 9/10 } := by
  refine ⟨by norm_num, ?_⟩
  rw [C5_zero_amount usdTable "EUR" (9/10) getRate_usdTable_eur (by norm_num),
    roundTo_eq_self 6 (9/10) 900000 (by norm_num)]

/-- C6 counterexample: `swapCurrencies` spreads the previous conversion
record, so a held result (`convertedAmount = some 9`) survives the swap —
the pending result is NOT cleared as the claim requires. -/
theorem C6_swap_keeps_result_counterexample :
    (swapCurrencies swapState).1.conversion.convertedAmount = some 9 ∧
    (swapCurrencies swapState).1.conversion.convertedAmount ≠ none ∧
    (swapCurrencies swapState).1.conversion.rate = some (9/10) := by
  refine ⟨rfl, ?_, rfl⟩
  intro h
  exact Option.noConfusion h

/-- C6 amended: swap exchanges the two currency selections and issues a
fetch for the new source currency (the old target), but it leaves the held
`convertedAmount` and `rate` untouched rather than clearing them. -/
theorem C6_swap_behavior (s : SessionState) :
    (swapCurrencies s).1.conversion.fromCurrency = s.conversion.toCurrency ∧
    (swapCurrencies s).1.conversion.toCurrency = s.conversion.fromCurrency ∧
    (swapCurrencies s).2 = s.conversion.toCurrency ∧
    (swapCurrencies s).1.conversion.convertedAmount = s.conversion.convertedAmount ∧
    (swapCurrencies s).1.conversion.rate = s.conversion.rate :=
  ⟨rfl, rfl, rfl, rfl, rfl⟩

/-- C7 counterexample: when the upstream reports the base code `"ZZZ"` as
unrecognized (an error body with no `rates` field), `getExchangeRates`
produces exactly the same error as a merely malformed response — there is
no `InvalidCurrencyError` kind distinct from the format failure, and the
error does not name the offending code. -/
theorem C7_no_distinct_error_kinds :
    getExchangeRates (.success (some upstreamUnsupportedCode))
      = getExchangeRates (.success (some upstreamNoRates)) ∧
    getExchangeRates (.success (some upstreamUnsupportedCode))
      = .error "Failed to fetch exchange rates" :=
  ⟨rfl, rfl⟩

/-- C7 amended: `getExchangeRates` fails with
`"Failed to fetch exchange rates: " ++ msg` on axios transport errors, and
with the single message `"Failed to fetch exchange rates"` both when the
response body is missing and whenever the body lacks a `rates` field —
including upstream reports of an unrecognized base code (the internal
`'Invalid response format'` throw is caught and rewrapped); no error kind
names the offending currency code. -/
theorem C7_error_collapse (msg : String) (d : UpstreamData) (h : d.rates = none) :
    getExchangeRates (.axiosFail msg)
      = .error ("Failed to fetch exchange rates: " ++ msg) ∧
    getExchangeRates (.success none) = .error "Failed to fetch exchange rates" ∧
    getExchangeRates (.success (some d)) = .error "Failed to fetch exchange rates" := by
  refine ⟨rfl, rfl, ?_⟩
  simp [getExchangeRates, h]

/-- Witness for C7 amended at a concrete transport error and a concrete
rates-less body. -/
theorem C7_error_collapse_witness :
    upstreamNoRates.rates = none ∧
    getExchangeRates (.axiosFail "timeout")
      = .error "Failed to fetch exchange rates: timeout" ∧
    getExchangeRates (.success none) = .error "Failed to fetch exchange rates" ∧
    getExchangeRates (.success (some upstreamNoRates))
      = .error "Failed to fetch exchange rates" :=
  ⟨rfl, C7_error_collapse "timeout" upstreamNoRates rfl⟩

/-- C8: `convertCurrency`, run with the external world threaded explicitly,
leaves the world unchanged (no side effects beyond the read), and a second
call with identical inputs on the resulting world returns the identical
output — the conversion is a deterministic function of its inputs. -/
theorem C8_convert_pure (w : World) (f t : String) (a : ℚ) :
    (convertCurrencyRun w f t a).2 = w ∧
    (convertCurrencyRun (convertCurrencyRun w f t a).2 f t a).1
      = (convertCurrencyRun w f t a).1 := by
  have hw : (convertCurrencyRun w f t a).2 = w := by
    unfold convertCurrencyRun
    cases getExchangeRates (w f) <;> rfl
  exact ⟨hw, by rw [hw]⟩

/-- C9: a present key whose rate is the falsy number `0` takes the same
error branch as an absent key: `if (!rate)` fires, and the thrown message
is identical to the missing-key message. -/
theorem C9_falsy_rate (t : ExchangeRates) (c : String) (a : ℚ)
    (h : getRate t.rates c = some 0) :
    convertCore t c a = .error ("Exchange rate not available for " ++ c) ∧
    ∀ t2 : ExchangeRates, getRate t2.rates c = none →
      convertCore t c a = convertCore t2 c a := by
  refine ⟨convertCore_zero_rate h a, fun t2 h2 => ?_⟩
  rw [convertCore_zero_rate h a, convertCore_absent h2 a]

/-- Witness for C9: the table storing rate `0` for `"XXX"` errors exactly
like the USD table, in which `"XXX"` is absent. -/
theorem C9_falsy_rate_witness :
    getRate zeroRateTable.rates "XXX" = some 0 ∧
    convertCore zeroRateTable "XXX" 5 = .error "Exchange rate not available for XXX" ∧
    convertCore zeroRateTable "XXX" 5 = convertCore usdTable "XXX" 5 := by
  have h := C9_falsy_rate zeroRateTable "XXX" 5 rfl
  exact ⟨rfl, h.1, h.2 usdTable rfl⟩

/-- C10: when the entered amount is non-positive, `handleConvert` stores
the error message `"Please enter a valid amount"` and returns at once: the
held conversion record (including `convertedAmount` and `rate`) is
unchanged, the currency list is unchanged, and no fetch or conversion is
attempted (the attempted flag is `false`). -/
theorem C10_invalid_amount (w : World) (s : SessionState)
    (h : s.conversion.amount ≤ 0) :
    handleConvert w s = ({ s with error := "Please enter a valid amount" }, false) ∧
    (handleConvert w s).1.conversion = s.conversion ∧
    (handleConvert w s).1.currencies = s.currencies ∧
    (handleConvert w s).2 = false := by
  have he : handleConvert w s
      = ({ s with error := "Please enter a valid amount" }, false) := by
    unfold handleConvert
    rw [if_pos (Or.inr h)]
  exact ⟨he, by rw [he], by rw [he], by rw [he]⟩

/-- Witness for C10 at a state with amount 0 that still holds an old
result. -/
theorem C10_invalid_amount_witness :
    zeroAmountState.conversion.amount ≤ 0 ∧
    handleConvert usdWorld zeroAmountState
      = ({ zeroAmountState with error := "Please enter a valid amount" }, false) ∧
    (handleConvert usdWorld zeroAmountState).1.conversion
      = zeroAmountState.conversion := by
  have h := C10_invalid_amount usdWorld zeroAmountState (le_refl 0)
  exact ⟨le_refl 0, h.1, h.2.1⟩
